import Mathlib

/-!
Verification of the Movement civic-engagement platform core
(event validation, parsing, campaign metrics, feed ranking, rate
limiting, stake escrow) against its natural-language specification.

The event model follows src/src/types/nostr.ts. Nostr tags are lists of
strings on the wire, so a tag is modelled as a `List String`; reading
`t[0]` or `t[1]` in JavaScript can yield `undefined`, modelled as
`Option String` via `List.head?` and `l[1]?`. Timestamps and the clock
are modelled as `Int` (JavaScript integer-valued numbers).
-/

namespace Movement

/-- A Nostr event (the NostrEvent shape used by src/src/types/nostr.ts). -/
structure NostrEvent where
  id : String
  pubkey : String
  created_at : Int
  kind : Nat
  content : String
  tags : List (List String)
deriving DecidableEq, Repr

/-- Campaign event kind constant (nostr.ts CAMPAIGN_KIND). -/
def CAMPAIGN_KIND : Nat := 31100

/-- Campaign update event kind constant (nostr.ts CAMPAIGN_UPDATE_KIND). -/
def CAMPAIGN_UPDATE_KIND : Nat := 31101

/-- Action attestation event kind constant (nostr.ts ACTION_ATTESTATION_KIND). -/
def ACTION_ATTESTATION_KIND : Nat := 31102

/-- The fixed enumerated set of campaign categories
(nostr.ts type CampaignCategory). -/
def CAMPAIGN_CATEGORIES : List String :=
  ["environment", "healthcare", "education", "civil_rights", "economy",
   "immigration", "gun_control", "housing", "transportation", "technology",
   "criminal_justice", "election_reform", "government_transparency",
   "public_safety", "community"]

/-- The fixed set of target government levels (nostr.ts type TargetLevel). -/
def TARGET_LEVELS : List String := ["federal", "state", "local"]

/-- JavaScript `t[0] === name` over all tags:
`tags.some(t => t[0] === name)`. An out-of-range access yields
`undefined`, which compares unequal to any string. -/
def hasTag (tags : List (List String)) (name : String) : Bool :=
  tags.any fun t => t.head? == some name

/-- JavaScript `tags.find(t => t[0] === name)`. -/
def findTag (tags : List (List String)) (name : String) : Option (List String) :=
  tags.find? fun t => t.head? == some name

/-- JavaScript `t[1]` (may be `undefined`). -/
def tagValue (t : List String) : Option String := t[1]?

/-- nostr.ts isCampaignEvent: kind test only. -/
def isCampaignEvent (event : NostrEvent) : Bool :=
  event.kind == CAMPAIGN_KIND

/-- nostr.ts isActionAttestationEvent: kind test only. -/
def isActionAttestationEvent (event : NostrEvent) : Bool :=
  event.kind == ACTION_ATTESTATION_KIND

/-- nostr.ts validateCampaignEvent: requires the campaign kind and the
presence of a d, title, category, target_level and alt tag. Tag values
are not inspected. -/
def validateCampaignEvent (event : NostrEvent) : Bool :=
  if event.kind != CAMPAIGN_KIND then false
  else
    let tags := event.tags
    let hasD := hasTag tags "d"
    let hasTitle := hasTag tags "title"
    let hasCategory := hasTag tags "category"
    let hasTargetLevel := hasTag tags "target_level"
    let hasAlt := hasTag tags "alt"
    hasD && hasTitle && hasCategory && hasTargetLevel && hasAlt

/-- nostr.ts validateActionAttestationEvent: requires the attestation kind
and the presence of an e, d, timestamp, nonce and alt tag. Tag values are
not inspected. -/
def validateActionAttestationEvent (event : NostrEvent) : Bool :=
  if event.kind != ACTION_ATTESTATION_KIND then false
  else
    let tags := event.tags
    let hasE := hasTag tags "e"
    let hasD := hasTag tags "d"
    let hasTimestamp := hasTag tags "timestamp"
    let hasNonce := hasTag tags "nonce"
    let hasAlt := hasTag tags "alt"
    hasE && hasD && hasTimestamp && hasNonce && hasAlt

/-- A JavaScript value that is either a tag-value string or a number:
`createdAtTag?.[1] || event.created_at` mixes the two. -/
inductive JsStrNum where
  | str (s : String)
  | num (n : Int)
deriving DecidableEq, Repr

/-- JavaScript `v || dflt` for an optional string `v`: `undefined` and the
empty string are falsy and fall back to the default. -/
def jsOrString (v : Option String) (dflt : String) : String :=
  match v with
  | some s => if s = "" then dflt else s
  | none => dflt

/-- JavaScript `v || n` where `v` is an optional tag-value string and `n`
a number. -/
def jsOrNum (v : Option String) (n : Int) : JsStrNum :=
  match v with
  | some s => if s = "" then .num n else .str s
  | none => .num n

/-- Campaign model parsed from a campaign event (nostr.ts Campaign).
Tag-extracted fields keep the JavaScript possibility of an `undefined`
value at index 1 of a tag. -/
structure Campaign where
  id : Option String
  title : Option String
  description : String
  categories : List (Option String)
  targetLevels : List (Option String)
  status : String
  creatorPubkey : String
  createdAt : JsStrNum
  eventId : String
  alt : Option String
  image : Option String
  video : Option String
  links : List (Option String)
deriving DecidableEq, Repr

/-- nostr.ts parseCampaign. The thrown error on missing required tags is
modelled as `none`. -/
def parseCampaign (event : NostrEvent) : Option Campaign :=
  let tags := event.tags
  let dTag := findTag tags "d"
  let titleTag := findTag tags "title"
  let altTag := findTag tags "alt"
  match dTag, titleTag with
  | some d, some title =>
    let categoryTags := tags.filter fun t => t.head? == some "category"
    let targetLevelTags := tags.filter fun t => t.head? == some "target_level"
    let statusTag := findTag tags "status"
    let createdAtTag := findTag tags "created_at"
    let imageTag := findTag tags "image"
    let videoTag := findTag tags "video"
    let linkTags := tags.filter fun t => t.head? == some "link"
    some
      { id := tagValue d
        title := tagValue title
        description := event.content
        categories := categoryTags.map tagValue
        targetLevels := targetLevelTags.map tagValue
        status := jsOrString (statusTag.bind tagValue) "active"
        creatorPubkey := event.pubkey
        createdAt := jsOrNum (createdAtTag.bind tagValue) event.created_at
        eventId := event.id
        alt := altTag.bind tagValue
        image := imageTag.bind tagValue
        video := videoTag.bind tagValue
        links := linkTags.map tagValue }
  | _, _ => none

/-- Action attestation model parsed from an attestation event
(nostr.ts ActionAttestation). -/
structure ActionAttestation where
  campaignEventId : Option String
  campaignId : Option String
  userPubkey : String
  timestamp : Option String
  nonce : Option String
  repCount : Option String
  eventId : String
deriving DecidableEq, Repr

/-- nostr.ts parseActionAttestation. The thrown error on missing required
tags (e, d, timestamp, nonce, alt) is modelled as `none`; the alt tag is
required by the check but not returned, as in the source. -/
def parseActionAttestation (event : NostrEvent) : Option ActionAttestation :=
  let tags := event.tags
  let eTag := findTag tags "e"
  let dTag := findTag tags "d"
  let timestampTag := findTag tags "timestamp"
  let nonceTag := findTag tags "nonce"
  let repCountTag := findTag tags "rep_count"
  let altTag := findTag tags "alt"
  match eTag, dTag, timestampTag, nonceTag, altTag with
  | some e, some d, some ts, some nonce, some _ =>
    some
      { campaignEventId := tagValue e
        campaignId := tagValue d
        userPubkey := event.pubkey
        timestamp := tagValue ts
        nonce := tagValue nonce
        repCount := repCountTag.bind tagValue
        eventId := event.id }
  | _, _, _, _, _ => none

/-- JavaScript `parseInt` on a string (decimal path): skip leading
whitespace, read an optional sign, then the longest prefix of decimal
digits; `none` models NaN (no digit found). Radix prefixes such as 0x are
not modelled; no value in this development uses them. -/
def parseIntJS (s : String) : Option Int :=
  let cs := s.data.dropWhile fun c => c.isWhitespace
  match cs with
  | '-' :: rest =>
    let ds := rest.takeWhile fun c => c.isDigit
    if ds.isEmpty then none
    else some (-(ds.foldl (fun acc c => acc * 10 + (c.toNat - 48)) 0 : Int))
  | '+' :: rest =>
    let ds := rest.takeWhile fun c => c.isDigit
    if ds.isEmpty then none
    else some ((ds.foldl (fun acc c => acc * 10 + (c.toNat - 48)) 0 : Int))
  | _ =>
    let ds := cs.takeWhile fun c => c.isDigit
    if ds.isEmpty then none
    else some ((ds.foldl (fun acc c => acc * 10 + (c.toNat - 48)) 0 : Int))

/-- Campaign metrics (nostr.ts CampaignMetrics). -/
structure CampaignMetrics where
  totalActions : Nat
  hotActions : Nat
  shareCount : Nat
  reactionCount : Nat
  commentCount : Nat
deriving DecidableEq, Repr

/-- The relay query issued by useCampaignMetrics: kinds [31102] with a
`#d` filter, i.e. the events of the attestation kind carrying a d tag
whose value equals the campaign id. The `limit: 1000` is not modelled
(event sets are taken below the limit). -/
def queryAttestations (campaignId : String) (events : List NostrEvent) :
    List NostrEvent :=
  events.filter fun e =>
    e.kind == ACTION_ATTESTATION_KIND &&
    e.tags.any fun t => t.head? == some "d" && t[1]? == some campaignId

/-- The timestamp used by the hot-action filter of useCampaignMetrics:
`timestamp ? parseInt(timestamp[1]) : a.created_at`. `none` models NaN
(a timestamp tag present but unparseable, or with no value). -/
def effectiveTimestamp (a : NostrEvent) : Option Int :=
  match findTag a.tags "timestamp" with
  | some t =>
    match tagValue t with
    | some s => parseIntJS s
    | none => none
  | none => some a.created_at

/-- The hot-action filter predicate of useCampaignMetrics: reject events
that are not of the attestation kind, then keep those whose effective
timestamp is at least `oneDayAgo = now - 86400` (a NaN timestamp
compares false). -/
def hotFilter (now : Int) (a : NostrEvent) : Bool :=
  if !(isActionAttestationEvent a) then false
  else
    match effectiveTimestamp a with
    | some ts => decide (now - 86400 ≤ ts)
    | none => false

/-- The body of useCampaignMetrics on an already-fetched attestation list:
totalActions counts the events of the attestation kind, hotActions those
passing the hot-action filter; share, reaction and comment counts are
placeholder zeros in the source. -/
def campaignMetrics (now : Int) (attestations : List NostrEvent) :
    CampaignMetrics :=
  { totalActions := (attestations.filter fun a => isActionAttestationEvent a).length
    hotActions := (attestations.filter fun a => hotFilter now a).length
    shareCount := 0
    reactionCount := 0
    commentCount := 0 }

/-- useCampaignMetrics (src/unnamed/part_000): query the relay for the
campaign's attestations, then compute the metrics at the query-time
clock value `now`. -/
def useCampaignMetrics (campaignId : String) (now : Int)
    (events : List NostrEvent) : CampaignMetrics :=
  campaignMetrics now (queryAttestations campaignId events)

/-- Feed tab (Index.tsx FeedTab). -/
inductive FeedTab where
  | trending
  | hot
  | new
deriving DecidableEq, Repr

/-- The ordering used by the JavaScript comparator
`(a, b) => b.created_at - a.created_at`: `a` may precede `b` exactly when
`b.created_at ≤ a.created_at`. -/
def createdAtGE (a b : NostrEvent) : Prop :=
  b.created_at ≤ a.created_at

instance : DecidableRel createdAtGE := fun a b =>
  inferInstanceAs (Decidable (b.created_at ≤ a.created_at))

instance : IsTotal NostrEvent createdAtGE :=
  ⟨fun a b => Int.le_total b.created_at a.created_at⟩

instance : IsTrans NostrEvent createdAtGE :=
  ⟨fun _ _ _ h1 h2 => le_trans h2 h1⟩

/-- CampaignFeed's query function (Index.tsx): filter the campaign events
and sort by created_at descending. `Array.prototype.sort` is a stable
sort, modelled by insertion sort (any stable sort under a total preorder
produces the same list). The three tabs all run the same placeholder
sort in the source. -/
def campaignFeed (tab : FeedTab) (events : List NostrEvent) :
    List NostrEvent :=
  let campaignEvents := events.filter fun e => isCampaignEvent e
  match tab with
  | .new => campaignEvents.insertionSort createdAtGE
  | .hot => campaignEvents.insertionSort createdAtGE
  | .trending => campaignEvents.insertionSort createdAtGE

/-- The campaign identifier of an event: the value of its d tag. -/
def campaignIdOf (e : NostrEvent) : Option String :=
  (findTag e.tags "d").bind tagValue

/-- The anti-replay identity of an attestation event:
(actor key, campaign id, nonce). -/
def attestationKey (e : NostrEvent) : String × Option String × Option String :=
  (e.pubkey, campaignIdOf e, (findTag e.tags "nonce").bind tagValue)

/-- Stated from the spec's words, for comparison with
validateCampaignEvent: a valid campaign event carries a unique-identifier
field, a title, at least one category value drawn from the fixed
enumerated set, at least one target-level value drawn from
federal/state/local, and a human-readable description field. -/
def specValidCampaign (event : NostrEvent) : Bool :=
  event.kind == CAMPAIGN_KIND &&
  hasTag event.tags "d" &&
  hasTag event.tags "title" &&
  (event.tags.any fun t =>
    t.head? == some "category" &&
      (match t[1]? with
       | some v => CAMPAIGN_CATEGORIES.contains v
       | none => false)) &&
  (event.tags.any fun t =>
    t.head? == some "target_level" &&
      (match t[1]? with
       | some v => TARGET_LEVELS.contains v
       | none => false)) &&
  hasTag event.tags "alt"

/-- Stated from the spec's words, for comparison with
validateActionAttestationEvent: a valid attestation carries a reference
to the parent campaign event, the campaign identifier, an integer
timestamp, a nonce of minimum length (the spec asks for at least 16
bytes of entropy), and, when a rep_count is present, that value parses
as a non-negative integer. -/
def specValidAttestation (event : NostrEvent) : Bool :=
  event.kind == ACTION_ATTESTATION_KIND &&
  hasTag event.tags "e" &&
  hasTag event.tags "d" &&
  (match (findTag event.tags "timestamp").bind tagValue with
   | some s => (parseIntJS s).isSome
   | none => false) &&
  (match (findTag event.tags "nonce").bind tagValue with
   | some s => decide (16 ≤ s.length)
   | none => false) &&
  (match findTag event.tags "rep_count" with
   | some t =>
     match tagValue t with
     | some s =>
       match parseIntJS s with
       | some n => decide (0 ≤ n)
       | none => false
     | none => false
   | none => true)

/-- Lexicographic comparison of character lists by code point. -/
def lexLeChars : List Char → List Char → Bool
  | [], _ => true
  | _ :: _, [] => false
  | a :: as, b :: bs =>
    if a.toNat < b.toNat then true
    else if b.toNat < a.toNat then false
    else lexLeChars as bs

/-- Lexicographic order on strings (the spec's "identifier lexical
order"). -/
def lexLe (s t : String) : Bool := lexLeChars s.data t.data

/-- Stated from the spec's words, for comparison with campaignFeed: the
New ranking places `a` before `b` when `a` was created later, or at the
same timestamp with an identifier that is lexically no greater. -/
def specNewLE (a b : NostrEvent) : Prop :=
  b.created_at < a.created_at ∨
    (a.created_at = b.created_at ∧
      lexLe ((campaignIdOf a).getD "") ((campaignIdOf b).getD "") = true)

instance : DecidableRel specNewLE := fun a b =>
  inferInstanceAs (Decidable (b.created_at < a.created_at ∨
    (a.created_at = b.created_at ∧
      lexLe ((campaignIdOf a).getD "") ((campaignIdOf b).getD "") = true)))

/-- Stated from the spec's words, for comparison with campaignFeed: New
orders campaigns by creation timestamp descending, ties broken by
lexical order of the campaign identifier. -/
def specNewRanking (events : List NostrEvent) : List NostrEvent :=
  (events.filter fun e => isCampaignEvent e).insertionSort specNewLE

/-- Stated from the spec's words: the Replay and Deduplication Guard
accepts the first arrival for each (actor key, campaign id, nonce) key
and absorbs later arrivals as duplicates; `firstPerKey` is the list of
accepted attestations, in arrival order. -/
def firstPerKey (l : List NostrEvent) : List NostrEvent :=
  l.foldl
    (fun acc e =>
      if (acc.map attestationKey).contains (attestationKey e) then acc
      else acc ++ [e])
    []

/-- Stated from the spec's words: the number of accepted attestations for
a campaign id — one per distinct (actor key, campaign id, nonce) tuple
among the campaign's attestation events. -/
def specAcceptedTotal (campaignId : String) (events : List NostrEvent) : Nat :=
  (firstPerKey (queryAttestations campaignId events)).length

/-- The action timestamp of an attestation event, read from its
timestamp tag. -/
def attTimestampInt (e : NostrEvent) : Option Int :=
  ((findTag e.tags "timestamp").bind tagValue).bind parseIntJS

/-- Stated from the spec's words: the number of accepted attestations
whose timestamp falls within the 24 hours (86400 seconds) preceding the
query-time clock value `now`. -/
def specHotTotal (campaignId : String) (now : Int) (events : List NostrEvent) :
    Nat :=
  ((firstPerKey (queryAttestations campaignId events)).filter fun e =>
    match attTimestampInt e with
    | some ts => decide (now - 86400 ≤ ts ∧ ts ≤ now)
    | none => false).length

/-- Rate limit configuration (representative.ts RateLimitConfig). -/
structure RateLimitConfig where
  actionsPerCampaignPerDay : Nat
  campaignsCreatedPerDay : Nat
  highVolumeThreshold : Nat
  highVolumeWindowMs : Nat
deriving DecidableEq, Repr

/-- Default rate limit configuration
(representative.ts DEFAULT_RATE_LIMIT_CONFIG). -/
def DEFAULT_RATE_LIMIT_CONFIG : RateLimitConfig :=
  { actionsPerCampaignPerDay := 1
    campaignsCreatedPerDay := 5
    highVolumeThreshold := 10
    highVolumeWindowMs := 60 * 60 * 1000 }

/-- An accepted attestation as consulted by the rate limiter: actor key,
campaign id and action timestamp (seconds). -/
structure AcceptedAction where
  actor : String
  campaignId : String
  timestamp : Int
deriving DecidableEq, Repr

/-- Result of a rate-limit check: allow, or deny with a resume time. -/
inductive RateLimitDecision where
  | Allow
  | Deny (resumeAt : Int)
deriving DecidableEq, Repr

/-- Modelled from the spec: the Rate Limiter's checkAction is absent from
the source — src/src/types/representative.ts declares only the
RateLimitConfig, RateLimitEntry and RateLimitCheckResult shapes and
DEFAULT_RATE_LIMIT_CONFIG. Per the spec, an actor may register at most
`actionsPerCampaignPerDay` accepted attestations per campaign per
rolling 24-hour window measured from their most recent accepted
attestation on that campaign; a denial reports the resume time. -/
def checkAction (accepted : List AcceptedAction) (actor campaignId : String)
    (now : Int) : RateLimitDecision :=
  let mine := accepted.filter fun r =>
    r.actor == actor && r.campaignId == campaignId
  let inWindow := mine.filter fun r => decide (now - r.timestamp < 86400)
  if DEFAULT_RATE_LIMIT_CONFIG.actionsPerCampaignPerDay ≤ inWindow.length then
    match (mine.map fun r => r.timestamp).max? with
    | some m => .Deny (m + 86400)
    | none => .Allow
  else .Allow

/-- Cashu stake configuration (representative.ts CashuStakeConfig). -/
structure CashuStakeConfig where
  amount : Nat
  minAmount : Nat
  maxAmount : Nat
  refundDelayMs : Nat
  requiredForCreation : Bool
  requiredForHighVolume : Bool
  highVolumeThreshold : Nat
deriving DecidableEq, Repr

/-- Default Cashu stake configuration
(representative.ts DEFAULT_CASHU_STAKE_CONFIG): 1000 sats, 24-hour
refund delay. -/
def DEFAULT_CASHU_STAKE_CONFIG : CashuStakeConfig :=
  { amount := 1000
    minAmount := 100
    maxAmount := 10000
    refundDelayMs := 24 * 60 * 60 * 1000
    requiredForCreation := true
    requiredForHighVolume := false
    highVolumeThreshold := 10 }

/-- Escrow state of a stake record. The source's CashuStakeTransaction
status field enumerates staked/refunded/forfeited; the spec's state
machine interposes a Refundable state between Staked and Refunded. -/
inductive StakeState where
  | Staked
  | Refundable
  | Refunded
  | Forfeited
deriving DecidableEq, Repr

/-- A stake record (representative.ts CashuStakeTransaction, with the
spec's four-state escrow state). -/
structure StakeRecord where
  id : String
  campaignId : String
  userPubkey : String
  amount : Nat
  stakedAt : Int
  refundableAt : Int
  state : StakeState
deriving DecidableEq, Repr

/-- An operation applied to a stake record: a reconciliation sweep at a
clock value with the campaign's current forfeiture signal, or an attempt
to execute the refund. -/
inductive StakeOp where
  | sweep (forfeitSignal : Bool) (now : Int)
  | refund
deriving DecidableEq, Repr

/-- Modelled from the spec: the escrow state machine is absent from the
source — representative.ts declares only the CashuStakeTransaction shape
and DEFAULT_CASHU_STAKE_CONFIG. Per the spec: a sweep re-checks state
before acting; a recorded forfeiture signal is dominant and moves a
Staked or Refundable record to Forfeited; otherwise a Staked record
whose refund timer elapsed becomes Refundable; refund moves Refundable
to Refunded and is a no-op elsewhere; the terminal states Refunded and
Forfeited never change. -/
def applyStakeOp (r : StakeRecord) (op : StakeOp) : StakeRecord :=
  match op with
  | .sweep signal now =>
    match r.state with
    | .Staked =>
      if signal then { r with state := .Forfeited }
      else if r.refundableAt ≤ now then { r with state := .Refundable }
      else r
    | .Refundable =>
      if signal then { r with state := .Forfeited } else r
    | .Refunded => r
    | .Forfeited => r
  | .refund =>
    match r.state with
    | .Refundable => { r with state := .Refunded }
    | _ => r

/-! Concrete events used to evaluate the definitions. -/

/-- First delivery of an attestation by actor k2 on save-park with
nonce n1. -/
def attDup1 : NostrEvent :=
  ⟨"ev1", "k2", 1050, 31102, "",
   [["e", "campev"], ["d", "save-park"], ["timestamp", "1050"],
    ["nonce", "n1"], ["alt", "a"]]⟩

/-- Second delivery of the same (actor key, campaign id, nonce)
attestation identity, arriving as a distinct event. -/
def attDup2 : NostrEvent :=
  ⟨"ev2", "k2", 1060, 31102, "",
   [["e", "campev"], ["d", "save-park"], ["timestamp", "1050"],
    ["nonce", "n1"], ["alt", "a"]]⟩

/-- An attestation on campaign rally whose timestamp tag (1000500) lies in
the future of the query clock used below (1000000); delivered twice with
the same (actor key, campaign id, nonce) identity. -/
def attFut1 : NostrEvent :=
  ⟨"fx1", "k3", 999000, 31102, "",
   [["e", "campev2"], ["d", "rally"], ["timestamp", "1000500"],
    ["nonce", "n9"], ["alt", "a"]]⟩

/-- Second delivery of the future-timestamped attestation identity. -/
def attFut2 : NostrEvent :=
  ⟨"fx2", "k3", 999100, 31102, "",
   [["e", "campev2"], ["d", "rally"], ["timestamp", "1000500"],
    ["nonce", "n9"], ["alt", "a"]]⟩

/-! Theorems settling the claims. -/

/-- Claim C1 (code-bug evidence): delivering the same
(actor key, campaign id, nonce) attestation twice as two events makes
useCampaignMetrics report totalActions = 2, while the spec's replay
guard would accept exactly one record for the tuple; no deduplication by
that tuple exists anywhere in the source. -/
theorem totalActions_double_counts_replayed_nonce :
    (useCampaignMetrics "save-park" 1100 [attDup1, attDup2]).totalActions = 2 ∧
    specAcceptedTotal "save-park" [attDup1, attDup2] = 1 := by decide

/-- Claim C2 counterexample: at the clock value 1000000 and the two
deliveries of one future-timestamped attestation identity, the computed
total (2) differs from the count of accepted attestations (1), and the
computed hot count (2) differs from the count of accepted attestations
timestamped within the 24 hours preceding the clock (0). -/
theorem campaignMetrics_ne_spec_counts :
    (useCampaignMetrics "rally" 1000000 [attFut1, attFut2]).totalActions ≠
      specAcceptedTotal "rally" [attFut1, attFut2] ∧
    (useCampaignMetrics "rally" 1000000 [attFut1, attFut2]).hotActions ≠
      specHotTotal "rally" 1000000 [attFut1, attFut2] := by decide

/-- Claim C2 amended: totalActions equals the number of events of the
attestation kind carrying a d tag equal to the campaign id — each event
counted, with no deduplication by (actor key, campaign id, nonce) — and
hotActions equals the number of those whose effective timestamp (the
parsed timestamp tag, falling back to the event's created_at when the
tag is absent) is at least now - 86400, with no upper bound at `now`. -/
theorem campaignMetrics_counts (campaignId : String) (now : Int)
    (events : List NostrEvent) :
    (useCampaignMetrics campaignId now events).totalActions
      = events.countP (fun e => decide (e.kind = ACTION_ATTESTATION_KIND ∧
          ∃ t ∈ e.tags, t.head? = some "d" ∧ t[1]? = some campaignId)) ∧
    (useCampaignMetrics campaignId now events).hotActions
      = events.countP (fun e => decide (e.kind = ACTION_ATTESTATION_KIND ∧
          (∃ t ∈ e.tags, t.head? = some "d" ∧ t[1]? = some campaignId) ∧
          ∃ ts, effectiveTimestamp e = some ts ∧ now - 86400 ≤ ts)) := by
  have hlen : ∀ (p q : NostrEvent → Bool) (l : List NostrEvent),
      ((l.filter q).filter p).length = l.countP fun a => p a && q a := by
    intro p q l
    rw [← List.countP_eq_length_filter, List.countP_filter]
  constructor
  · show ((queryAttestations campaignId events).filter
        fun a => isActionAttestationEvent a).length = _
    rw [queryAttestations, hlen]
    apply List.countP_congr
    intro e _
    constructor
    · intro h
      simp only [Bool.and_eq_true, beq_iff_eq, List.any_eq_true,
        isActionAttestationEvent, decide_eq_true_eq] at h ⊢
      obtain ⟨hk, -, t, ht, hv⟩ := h
      exact ⟨hk, t, ht, hv.1, hv.2⟩
    · intro h
      simp only [decide_eq_true_eq] at h
      obtain ⟨hk, t, ht, hh, hv⟩ := h
      simp only [Bool.and_eq_true, beq_iff_eq, List.any_eq_true,
        isActionAttestationEvent]
      exact ⟨hk, hk, t, ht, by simp [hh, hv]⟩
  · show ((queryAttestations campaignId events).filter
        fun a => hotFilter now a).length = _
    rw [queryAttestations, hlen]
    apply List.countP_congr
    intro e _
    by_cases hk : e.kind = ACTION_ATTESTATION_KIND
    · rcases he : effectiveTimestamp e with _ | ts
      · simp [hotFilter, isActionAttestationEvent, hk, he]
      · simp [hotFilter, isActionAttestationEvent, hk, he, List.any_eq_true]
        tauto
    · have hb : (e.kind == ACTION_ATTESTATION_KIND) = false :=
        beq_eq_false_iff_ne.mpr hk
      simp [hotFilter, isActionAttestationEvent, hb, hk]

/-- A campaign event whose category and target-level values lie outside
the enumerated sets. -/
def badCampaignEv : NostrEvent :=
  ⟨"bc1", "pk9", 500, 31100, "desc",
   [["d", "rogue"], ["title", "Rogue"], ["category", "space_lasers"],
    ["target_level", "galactic"], ["alt", "c"]]⟩

/-- Claim C3 counterexample: the validator accepts a campaign event whose
category value lies outside the fixed enumerated set and whose target
level lies outside federal/state/local, so acceptance does not imply the
value constraints stated by the claim. -/
theorem validateCampaignEvent_ignores_values :
    validateCampaignEvent badCampaignEv = true ∧
    specValidCampaign badCampaignEv = false := by decide

/-- Claim C3 amended: validateCampaignEvent accepts exactly the events of
the campaign kind whose tags include at least one tag labelled each of
d, title, category, target_level and alt; tag values are never
inspected. -/
theorem validateCampaignEvent_characterization (e : NostrEvent) :
    validateCampaignEvent e = true ↔
      e.kind = CAMPAIGN_KIND ∧
      (∃ t ∈ e.tags, t.head? = some "d") ∧
      (∃ t ∈ e.tags, t.head? = some "title") ∧
      (∃ t ∈ e.tags, t.head? = some "category") ∧
      (∃ t ∈ e.tags, t.head? = some "target_level") ∧
      (∃ t ∈ e.tags, t.head? = some "alt") := by
  by_cases hk : e.kind = CAMPAIGN_KIND <;>
    simp [validateCampaignEvent, hasTag, List.any_eq_true, hk, and_assoc]

/-- An attestation event whose timestamp value is not an integer, whose
nonce is shorter than any positive minimum, and whose rep_count parses
to a negative number. -/
def badAttEv : NostrEvent :=
  ⟨"ba1", "pk8", 700, 31102, "",
   [["e", "parent"], ["d", "rogue"], ["timestamp", "soon"], ["nonce", "ab"],
    ["rep_count", "-3"], ["alt", "a"]]⟩

/-- Claim C4 counterexample: the validator accepts an attestation event
whose timestamp does not parse as an integer, whose nonce is two
characters long, and whose rep_count parses to -3, so acceptance does
not imply the value constraints stated by the claim. -/
theorem validateActionAttestationEvent_ignores_values :
    validateActionAttestationEvent badAttEv = true ∧
    specValidAttestation badAttEv = false := by decide

/-- Claim C4 amended: validateActionAttestationEvent accepts exactly the
events of the attestation kind whose tags include at least one tag
labelled each of e, d, timestamp, nonce and alt; no tag value —
timestamp integrality, nonce length, rep_count sign — is inspected. -/
theorem validateActionAttestationEvent_characterization (e : NostrEvent) :
    validateActionAttestationEvent e = true ↔
      e.kind = ACTION_ATTESTATION_KIND ∧
      (∃ t ∈ e.tags, t.head? = some "e") ∧
      (∃ t ∈ e.tags, t.head? = some "d") ∧
      (∃ t ∈ e.tags, t.head? = some "timestamp") ∧
      (∃ t ∈ e.tags, t.head? = some "nonce") ∧
      (∃ t ∈ e.tags, t.head? = some "alt") := by
  by_cases hk : e.kind = ACTION_ATTESTATION_KIND <;>
    simp [validateActionAttestationEvent, hasTag, List.any_eq_true, hk,
      and_assoc]

/-- Campaign event with identifier b, created at timestamp 100. -/
def evTieB : NostrEvent :=
  ⟨"idB", "pk1", 100, 31100, "",
   [["d", "b"], ["title", "B"], ["category", "community"],
    ["target_level", "local"], ["alt", "x"]]⟩

/-- Campaign event with identifier a, created at the same timestamp 100. -/
def evTieA : NostrEvent :=
  ⟨"idA", "pk2", 100, 31100, "",
   [["d", "a"], ["title", "A"], ["category", "community"],
    ["target_level", "local"], ["alt", "x"]]⟩

/-- Claim C5 counterexample: two campaigns share creation timestamp 100;
the New feed keeps their arrival order both ways — so the tie depends on
arrival order — and disagrees with the spec's identifier-lexical
tie-break, which puts identifier a first. -/
theorem campaignFeed_tie_keeps_arrival_order :
    campaignIdOf evTieB = some "b" ∧ campaignIdOf evTieA = some "a" ∧
    campaignFeed .new [evTieB, evTieA] = [evTieB, evTieA] ∧
    campaignFeed .new [evTieA, evTieB] = [evTieA, evTieB] ∧
    campaignFeed .new [evTieB, evTieA] ≠ specNewRanking [evTieB, evTieA] := by
  decide

/-- Claim C5 amended: the New tab returns exactly the campaign-kind
events, reordered so that creation timestamps are descending; the sort
is stable, so a pair already in comparator order — in particular a pair
with equal timestamps — keeps its relative arrival order, and no
identifier tie-break is applied. -/
theorem campaignFeed_new_sorted (events : List NostrEvent) :
    (campaignFeed .new events).Perm
      (events.filter fun e => isCampaignEvent e) ∧
    (campaignFeed .new events).Sorted createdAtGE ∧
    (∀ a b : NostrEvent, createdAtGE a b →
      [a, b].Sublist (events.filter fun e => isCampaignEvent e) →
      [a, b].Sublist (campaignFeed .new events)) := by
  refine ⟨List.perm_insertionSort _ _, List.sorted_insertionSort _ _, ?_⟩
  intro a b hab hsub
  exact List.pair_sublist_insertionSort hab hsub

/-- Claim C5 amended, witness at a concrete input: the tied pair in
arrival order is kept by the sort. -/
theorem campaignFeed_new_sorted_witness :
    (campaignFeed .new [evTieB, evTieA]).Perm
      ([evTieB, evTieA].filter fun e => isCampaignEvent e) ∧
    [evTieB, evTieA].Sublist (campaignFeed .new [evTieB, evTieA]) :=
  ⟨(campaignFeed_new_sorted [evTieB, evTieA]).1,
   (campaignFeed_new_sorted [evTieB, evTieA]).2.2 evTieB evTieA (by decide)
     (by decide)⟩

/-- Claim C6 counterexample: permuting the arrival order of two campaigns
with equal creation timestamps changes the ranking returned by the feed,
so the rankings are not a function of the event set alone. -/
theorem ranking_depends_on_arrival_order :
    ([evTieB, evTieA].Perm [evTieA, evTieB]) ∧
    campaignFeed .new [evTieB, evTieA] ≠ campaignFeed .new [evTieA, evTieB] :=
  ⟨List.Perm.swap evTieA evTieB [], by decide⟩

/-- Two stable sorts of permuted inputs agree when the sort keys are
pairwise distinct. -/
theorem insertionSort_eq_of_perm_of_distinct (l l' : List NostrEvent)
    (hperm : l.Perm l')
    (hdistinct : l.Pairwise fun a b => a.created_at ≠ b.created_at) :
    l.insertionSort createdAtGE = l'.insertionSort createdAtGE := by
  haveI : IsAntisymm NostrEvent fun a b => b.created_at < a.created_at :=
    ⟨fun a b h1 h2 => absurd (h1.trans h2) (lt_irrefl _)⟩
  have hsym : Symmetric fun a b : NostrEvent => a.created_at ≠ b.created_at :=
    fun a b h e => h e.symm
  have hp : (l.insertionSort createdAtGE).Perm (l'.insertionSort createdAtGE) :=
    (List.perm_insertionSort _ l).trans
      (hperm.trans (List.perm_insertionSort _ l').symm)
  have hd1 : (l.insertionSort createdAtGE).Pairwise
      fun a b => a.created_at ≠ b.created_at :=
    (List.Perm.pairwise_iff (fun h => hsym h)
      (List.perm_insertionSort createdAtGE l)).mpr hdistinct
  have hd2 : (l'.insertionSort createdAtGE).Pairwise
      fun a b => a.created_at ≠ b.created_at :=
    (List.Perm.pairwise_iff (fun h => hsym h) hp).mp hd1
  have hstrict : ∀ m : List NostrEvent, m.Sorted createdAtGE →
      m.Pairwise (fun a b => a.created_at ≠ b.created_at) →
      m.Pairwise fun a b => b.created_at < a.created_at := by
    intro m hs hd
    exact (List.Pairwise.and hs hd).imp
      fun hab => lt_of_le_of_ne hab.1 fun e => hab.2 e.symm
  exact List.eq_of_perm_of_sorted hp
    (hstrict _ (List.sorted_insertionSort _ l) hd1)
    (hstrict _ (List.sorted_insertionSort _ l') hd2)

/-- Claim C6 amended: any permutation of the arrival order yields
identical CampaignMetrics, and identical rankings provided the campaign
creation timestamps are pairwise distinct (ties can differ, as the
counterexample shows). -/
theorem aggregator_order_invariance (l l' : List NostrEvent)
    (campaignId : String) (now : Int) (tab : FeedTab)
    (hperm : l.Perm l')
    (hdistinct : (l.filter fun e => isCampaignEvent e).Pairwise
      fun a b => a.created_at ≠ b.created_at) :
    useCampaignMetrics campaignId now l = useCampaignMetrics campaignId now l' ∧
    campaignFeed tab l = campaignFeed tab l' := by
  have hq : (queryAttestations campaignId l).Perm
      (queryAttestations campaignId l') := hperm.filter _
  constructor
  · show campaignMetrics now _ = campaignMetrics now _
    unfold campaignMetrics
    congr 1
    · exact (hq.filter _).length_eq
    · exact (hq.filter _).length_eq
  · have hfp : (l.filter fun e => isCampaignEvent e).Perm
        (l'.filter fun e => isCampaignEvent e) := hperm.filter _
    have hsort := insertionSort_eq_of_perm_of_distinct _ _ hfp hdistinct
    cases tab <;> exact hsort

/-- Campaign event with a distinct creation timestamp 200. -/
def evNew1 : NostrEvent :=
  ⟨"n1", "pk1", 200, 31100, "",
   [["d", "p"], ["title", "P"], ["category", "housing"],
    ["target_level", "state"], ["alt", "x"]]⟩

/-- Campaign event with a distinct creation timestamp 150. -/
def evNew2 : NostrEvent :=
  ⟨"n2", "pk2", 150, 31100, "",
   [["d", "q"], ["title", "Q"], ["category", "economy"],
    ["target_level", "state"], ["alt", "x"]]⟩

/-- Claim C6 amended, witness at a concrete input: swapping the arrival
order of two campaigns with distinct timestamps leaves the metrics and
the feed unchanged. -/
theorem aggregator_order_invariance_witness :
    useCampaignMetrics "p" 1000 [evNew1, evNew2]
      = useCampaignMetrics "p" 1000 [evNew2, evNew1] ∧
    campaignFeed .new [evNew1, evNew2] = campaignFeed .new [evNew2, evNew1] :=
  aggregator_order_invariance [evNew1, evNew2] [evNew2, evNew1] "p" 1000 .new
    (List.Perm.swap evNew2 evNew1 []) (by decide)

/-- Claim C7: for an actor whose only accepted attestation on the
campaign is at time T, checkAction denies a second attestation at
T+23h59m (86340 seconds later), reporting the resume time T+24h, and
allows one at T+24h00m01s (86401 seconds later). -/
theorem checkAction_rolling_window (actor campaignId : String) (T : Int) :
    checkAction [⟨actor, campaignId, T⟩] actor campaignId (T + 86340)
      = .Deny (T + 86400) ∧
    checkAction [⟨actor, campaignId, T⟩] actor campaignId (T + 86401)
      = .Allow := by
  have h1 : T + 86340 - T < 86400 := by omega
  have h2 : ¬ (T + 86401 - T < 86400) := by omega
  constructor
  · simp [checkAction, h1, DEFAULT_RATE_LIMIT_CONFIG, List.max?]
  · simp [checkAction, h2, DEFAULT_RATE_LIMIT_CONFIG]

/-- Once a stake record is Forfeited, no sequence of sweeps or refund
attempts changes its state. -/
theorem foldl_applyStakeOp_forfeited (ops : List StakeOp) (r : StakeRecord)
    (h : r.state = .Forfeited) :
    (ops.foldl applyStakeOp r).state = .Forfeited := by
  induction ops generalizing r with
  | nil => simpa using h
  | cons op rest ih =>
    apply ih
    cases op <;> simp [applyStakeOp, h]

/-- Claim C8: when a forfeiture signal is recorded and the refund timer
has elapsed, a sweep over a Staked or Refundable record always produces
Forfeited — never Refunded — and after that no sweep or refund attempt
ever changes the state again. -/
theorem stake_forfeiture_dominant (r : StakeRecord) (now : Int)
    (ops : List StakeOp)
    (hstate : r.state = .Staked ∨ r.state = .Refundable)
    (_htimer : r.refundableAt ≤ now) :
    (applyStakeOp r (.sweep true now)).state = .Forfeited ∧
    (applyStakeOp r (.sweep true now)).state ≠ .Refunded ∧
    (ops.foldl applyStakeOp (applyStakeOp r (.sweep true now))).state
      = .Forfeited := by
  have hf : (applyStakeOp r (.sweep true now)).state = .Forfeited := by
    rcases hstate with h | h <;> simp [applyStakeOp, h]
  exact ⟨hf, by simp [hf], foldl_applyStakeOp_forfeited ops _ hf⟩

/-- A stake of 1000 sats placed at time 0 with the default 24-hour
refund delay (in seconds here), currently Staked. -/
def wStake : StakeRecord :=
  ⟨"tx1", "save-park", "k1", 1000, 0, 86400, .Staked⟩

/-- Claim C8, witness at a concrete input: a sweep one second after the
timer elapsed, with the forfeiture signal present, forfeits the stake,
and later refund attempts and sweeps leave it Forfeited. -/
theorem stake_forfeiture_dominant_witness :
    (applyStakeOp wStake (.sweep true 86401)).state = .Forfeited ∧
    (applyStakeOp wStake (.sweep true 86401)).state ≠ .Refunded ∧
    ([StakeOp.refund, .sweep false 90000].foldl applyStakeOp
      (applyStakeOp wStake (.sweep true 86401))).state = .Forfeited :=
  stake_forfeiture_dominant wStake 86401 [StakeOp.refund, .sweep false 90000]
    (Or.inl rfl) (by decide)

/-- A tag named `name` that some tag-presence check found can also be
found by find?. -/
theorem findTag_isSome_of_hasTag (tags : List (List String)) (name : String)
    (h : hasTag tags name = true) : (findTag tags name).isSome := by
  rw [findTag, List.find?_isSome]
  simpa [hasTag, List.any_eq_true] using h

/-- Claim C9: an event accepted by a validator is parsed by the
corresponding parser without reaching the missing-required-tags error
branch. -/
theorem validated_events_parse (e : NostrEvent) :
    (validateCampaignEvent e = true → (parseCampaign e).isSome = true) ∧
    (validateActionAttestationEvent e = true →
      (parseActionAttestation e).isSome = true) := by
  constructor
  · intro h
    rw [validateCampaignEvent] at h
    split at h
    · exact absurd h (by simp)
    · simp only [Bool.and_eq_true] at h
      obtain ⟨⟨⟨⟨hd, ht⟩, -⟩, -⟩, -⟩ := h
      obtain ⟨d, hfd⟩ :=
        Option.isSome_iff_exists.mp (findTag_isSome_of_hasTag _ _ hd)
      obtain ⟨t, hft⟩ :=
        Option.isSome_iff_exists.mp (findTag_isSome_of_hasTag _ _ ht)
      simp [parseCampaign, hfd, hft]
  · intro h
    rw [validateActionAttestationEvent] at h
    split at h
    · exact absurd h (by simp)
    · simp only [Bool.and_eq_true] at h
      obtain ⟨⟨⟨⟨he, hd⟩, hts⟩, hn⟩, ha⟩ := h
      obtain ⟨te, hfe⟩ :=
        Option.isSome_iff_exists.mp (findTag_isSome_of_hasTag _ _ he)
      obtain ⟨td, hfd⟩ :=
        Option.isSome_iff_exists.mp (findTag_isSome_of_hasTag _ _ hd)
      obtain ⟨tt, hfts⟩ :=
        Option.isSome_iff_exists.mp (findTag_isSome_of_hasTag _ _ hts)
      obtain ⟨tn, hfn⟩ :=
        Option.isSome_iff_exists.mp (findTag_isSome_of_hasTag _ _ hn)
      obtain ⟨ta, hfa⟩ :=
        Option.isSome_iff_exists.mp (findTag_isSome_of_hasTag _ _ ha)
      simp [parseActionAttestation, hfe, hfd, hfts, hfn, hfa]

/-- A well-formed campaign event accepted by the validator. -/
def okCampaignEv : NostrEvent :=
  ⟨"oc1", "pk1", 900, 31100, "desc",
   [["d", "save-park"], ["title", "Save the Park"],
    ["category", "environment"], ["target_level", "local"],
    ["alt", "Campaign"]]⟩

/-- Claim C9, witness at concrete inputs: a validator-accepted campaign
event and a validator-accepted attestation event both parse. -/
theorem validated_events_parse_witness :
    (parseCampaign okCampaignEv).isSome = true ∧
    (parseActionAttestation attDup1).isSome = true :=
  ⟨(validated_events_parse okCampaignEv).1 (by decide),
   (validated_events_parse attDup1).2 (by decide)⟩

/-- Claim C10: for every campaign id, attestation event set and clock
value, the metrics satisfy hotActions ≤ totalActions, and both counters
are non-negative (they are Nat-valued counts). -/
theorem metrics_hot_le_total (campaignId : String) (now : Int)
    (events : List NostrEvent) :
    0 ≤ (useCampaignMetrics campaignId now events).hotActions ∧
    0 ≤ (useCampaignMetrics campaignId now events).totalActions ∧
    (useCampaignMetrics campaignId now events).hotActions ≤
      (useCampaignMetrics campaignId now events).totalActions := by
  refine ⟨Nat.zero_le _, Nat.zero_le _, ?_⟩
  show ((queryAttestations campaignId events).filter
      fun a => hotFilter now a).length ≤
    ((queryAttestations campaignId events).filter
      fun a => isActionAttestationEvent a).length
  rw [← List.countP_eq_length_filter, ← List.countP_eq_length_filter]
  apply List.countP_mono_left
  intro a _ hpa
  by_cases hA : isActionAttestationEvent a = true
  · exact hA
  · have hA' : isActionAttestationEvent a = false :=
      Bool.eq_false_iff.mpr hA
    simp [hotFilter, hA'] at hpa

end Movement
